import Mathlib

/-!
Shallow embedding of the Gatekeeper Viewer backend
(`src/backend/github_client.py`, `src/backend/copilot_fetcher.py`,
`src/backend/main.py`).  Network transports (httpx, the Copilot RPC
client), `json.loads` and the zip reader are external collaborators: they
appear as explicit function arguments or as already-materialised response
values, exactly at the boundary where the Python code consumes their
results.  Python dicts are ordered association lists; a raised Python
exception is the `.error` side of an `Except`.
-/

/-- A JSON-compatible value, the image of `json.loads`.  Python dicts keep
insertion order, so an object is an ordered association list. -/
inductive JVal : Type where
  | str (s : String)
  | num (n : Int)
  | bool (b : Bool)
  | null
  | arr (elems : List JVal)
  | obj (fields : List (String × JVal))

/-- Python dict assignment `d[k] = v`: overwrite the existing key in place,
else append the new pair at the end (insertion order). -/
def setKey {α : Type} : List (String × α) → String → α → List (String × α)
  | [], k, v => [(k, v)]
  | (k0, v0) :: rest, k, v =>
    if k0 = k then (k0, v) :: rest else (k0, v0) :: setKey rest k v

/-- Python dict lookup `d.get(k)`: the value at the first (unique) occurrence
of the key, if any. -/
def getKey {α : Type} : List (String × α) → String → Option α
  | [], _ => none
  | (k0, v0) :: rest, k => if k0 = k then some v0 else getKey rest k

/-- Membership test `k in d` for a dict-shaped JSON value (the only shape the
router's `in` tests meet on the artifact results it inspects). -/
def JVal.hasKey : JVal → String → Bool
  | .obj fields, k => (getKey fields k).isSome
  | _, _ => false

/-- The Python exception classes raised or caught in this backend.  httpx's
`raise_for_status` failure is `httpStatusError`; `json.loads` and zip-read
failures keep their own constructors so they stay unclassified. -/
inductive PyExc : Type where
  | permissionError (msg : String)
  | lookupError (msg : String)
  | httpStatusError (status : Nat)
  | jsonDecodeError
  | badZipError
  | otherError (msg : String)
deriving DecidableEq

/-- The 401 message of `GitHubClient._get_json`. -/
def invalidTokenMsg : String :=
  "Invalid token — check that your PAT is correct and not expired."

/-- The 403 message of `GitHubClient._get_json`, carrying the remediation
hint that names the required scopes. -/
def accessDeniedMsg : String :=
  "Access denied (403). Your token may lack the required scope. Classic PATs need 'repo' scope; fine-grained PATs need 'Actions: Read' and 'Contents: Read' permissions for this repository."

/-- The 404 message of `GitHubClient._get_json`. -/
def repoNotFoundMsg : String :=
  "Repository not found or not accessible with this token."

/-- `GitHubClient._get_json`, abstracted over the upstream response it
receives (status code and parsed body): 401 raises `PermissionError` with
the invalid-token message, 403 raises `PermissionError` with the
access-denied message, 404 raises `LookupError`, any other error status
raises via `raise_for_status`, and a success returns the body. -/
def GitHubClient._get_json (status : Nat) (body : JVal) : Except PyExc JVal :=
  if status = 401 then .error (.permissionError invalidTokenMsg)
  else if status = 403 then .error (.permissionError accessDeniedMsg)
  else if status = 404 then .error (.lookupError repoNotFoundMsg)
  else if 400 ≤ status then .error (.httpStatusError status)
  else .ok body

/-- The except-clauses of the `connect` endpoint in `main.py`: a raised
`PermissionError` becomes HTTP 403, a `LookupError` becomes 404, and any
other exception becomes 401 ("GitHub API error"). -/
def connect_exc_status : PyExc → Nat
  | .permissionError _ => 403
  | .lookupError _ => 404
  | _ => 401

/-- The try/except around `client.validate()` in the `connect` endpoint:
`none` when validation succeeds (no HTTP error raised from this block),
otherwise the status the except-clauses assign to the raised exception. -/
def connect_validate_status (validate : Except PyExc JVal) : Option Nat :=
  match validate with
  | .ok _ => none
  | .error e => some (connect_exc_status e)

/-- Python `s[:n]`, written on the character list so it evaluates inside
the kernel. -/
def strTake (s : String) (n : Nat) : String := ⟨s.data.take n⟩

/-- Python `s.endswith(p)`, written on the character lists. -/
def strEndsWith (s p : String) : Bool := p.data.isSuffixOf s.data

/-- Python `s.startswith(p)`, written on the character lists. -/
def strStartsWith (s p : String) : Bool := p.data.isPrefixOf s.data

/-- An upstream workflow-run object, holding the fields `get_runs` reads.
The mandatory fields are read with `r[...]`; the actor login and avatar are
read through `r.get("actor", {}).get(..., default)`, so they collapse to
optional values. -/
structure UpstreamRun : Type where
  id : Int
  status : String
  conclusion : Option String
  created_at : String
  updated_at : String
  html_url : String
  head_sha : String
  display_title : String
  run_number : Int
  actor_login : Option String
  actor_avatar : Option String
deriving DecidableEq

/-- The normalized run-summary shape built by `get_runs`. -/
structure RunSummary : Type where
  id : Int
  status : String
  conclusion : Option String
  created_at : String
  updated_at : String
  html_url : String
  head_sha : String
  display_title : String
  run_number : Int
  actor : String
  actor_avatar : String
deriving DecidableEq

/-- The dict comprehension body of `get_runs`: one summary per upstream run,
with `head_sha[:7]` and the `.get` defaults for the actor fields. -/
def summarizeRun (r : UpstreamRun) : RunSummary :=
  { id := r.id
    status := r.status
    conclusion := r.conclusion
    created_at := r.created_at
    updated_at := r.updated_at
    html_url := r.html_url
    head_sha := strTake r.head_sha 7
    display_title := r.display_title
    run_number := r.run_number
    actor := r.actor_login.getD "unknown"
    actor_avatar := r.actor_avatar.getD "" }

/-- The query parameters `get_runs` sends with the listing request. -/
structure RunsQuery : Type where
  per_page : Int
  status : String
deriving DecidableEq

/-- `GitHubClient.get_runs`: request one page of the workflow's runs with
params `per_page` and `status=completed`, then map each run of the upstream
response (`data.get("workflow_runs", [])`, here the list `fetchPage`
returns) to its summary.  The response is trusted as-is: no local
truncation and no local status filtering. -/
def GitHubClient.get_runs (fetchPage : Int → RunsQuery → List UpstreamRun)
    (workflow_id : Int) (per_page : Int) : List RunSummary :=
  (fetchPage workflow_id { per_page := per_page, status := "completed" }).map
    summarizeRun

/-- One item of the run's artifact listing, with the two fields
`get_artifact` reads from it. -/
structure ArtifactInfo : Type where
  name : String
  id : Int
deriving DecidableEq

/-- The artifact-listing loop of `get_artifact`: walk the artifacts in
listing order, appending every name seen to `available`, and break at the
first artifact whose name equals the requested one (so on a hit `available`
stops at the hit; on a miss it is the full name list). -/
def findArtifact (artifact_name : String) :
    List ArtifactInfo → Option Int × List String
  | [] => (none, [])
  | a :: rest =>
    if a.name = artifact_name then (some a.id, [a.name])
    else
      let r := findArtifact artifact_name rest
      (r.1, a.name :: r.2)

/-- One entry of the downloaded zip archive.  `read` models `zf.read(name)`
(plus the text decode where the code decodes, which with
`errors="replace"` itself never fails): `.error` is a raised exception
while reading this entry. -/
structure ZipEntry : Type where
  name : String
  read : Except Unit String

/-- Python `name.rsplit("/", 1)[-1] if "/" in name else name`: the base
filename after the last slash. -/
def basename (name : String) : String :=
  ⟨(name.data.reverse.takeWhile (fun c => c != '/')).reverse⟩

/-- The priority-ordered known JSON filenames of `get_artifact`. -/
def json_candidates : List String :=
  ["gatekeeper-consolidated.json", "council-results.json"]

/-- The candidate loop of `get_artifact`: for each known filename in
priority order, scan the archive's name list for the first entry whose name
ends with it; the first candidate with any match wins. -/
def findCandidateEntry (entries : List ZipEntry) : List String → Option ZipEntry
  | [] => none
  | c :: cs =>
    match entries.find? (fun e => strEndsWith e.name c) with
    | some e => some e
    | none => findCandidateEntry entries cs

/-- The JSON entry `get_artifact` extracts: a candidate match in priority
order, else (fallback) the first entry whose name ends in ".json". -/
def chosenJsonEntry (entries : List ZipEntry) : Option ZipEntry :=
  match findCandidateEntry entries json_candidates with
  | some e => some e
  | none => entries.find? (fun e => strEndsWith e.name ".json")

/-- `GitHubClient._merge_cast_impact`: find the first entry whose base
filename starts with "cast-impact-analysis" (then break); inside a
try/except, read and decode it and assign `result["cast_impact_analysis"]`.
Any exception in the try block — a failing read, or the item assignment on a
non-dict result — is swallowed and `result` is returned unchanged. -/
def GitHubClient._merge_cast_impact (entries : List ZipEntry) (result : JVal) :
    JVal :=
  match entries.find?
      (fun e => strStartsWith (basename e.name) "cast-impact-analysis") with
  | none => result
  | some e =>
    match e.read, result with
    | .ok content, .obj fields =>
      .obj (setKey fields "cast_impact_analysis" (.str content))
    | _, _ => result

/-- The error message of the artifact-name miss in `get_artifact`. -/
def artifactNotFoundMsg (artifact_name : String) : String :=
  "Artifact '" ++ artifact_name ++ "' not found"

/-- The error descriptor `get_artifact` returns when the archive holds no
JSON entry at all. -/
def noJsonFoundDict : JVal :=
  .obj [("error", .str "No JSON found in artifact")]

/-- `GitHubClient.get_artifact`: list the run's artifacts and search for the
requested name (on a miss, return the error dict carrying the available
names); download the zip (`download` models the GET, `raise_for_status` and
the `ZipFile` opening, any of which may raise); pick the JSON entry
(priority candidates, then any ".json"; if none, return the no-JSON error
dict); read and parse it (`parse` models `json.loads`; a raised zip-read or
decode error propagates unclassified) and merge the cast-impact markdown.
The annotated Python return type is `dict | None`, modelled as
`Option JVal` inside the exception monad. -/
def GitHubClient.get_artifact
    (parse : String → Except Unit JVal)
    (download : Int → Except PyExc (List ZipEntry))
    (artifacts : List ArtifactInfo)
    (artifact_name : String) : Except PyExc (Option JVal) :=
  match findArtifact artifact_name artifacts with
  | (none, available) =>
    .ok (some (.obj [("error", .str (artifactNotFoundMsg artifact_name)),
                     ("available", .arr (available.map .str))]))
  | (some artifact_id, _) =>
    match download artifact_id with
    | .error e => .error e
    | .ok entries =>
      match chosenJsonEntry entries with
      | none => .ok (some noJsonFoundDict)
      | some entry =>
        match entry.read with
        | .error _ => .error .badZipError
        | .ok raw =>
          match parse raw with
          | .error _ => .error .jsonDecodeError
          | .ok result =>
            .ok (some (GitHubClient._merge_cast_impact entries result))

/-- The outcome of the artifact endpoint's body in `main.py`. -/
inductive ArtifactEndpointResult : Type where
  | ok (v : JVal)
  | notFoundPlain
  | notFoundDetail (d : JVal)
  | raised (e : PyExc)

/-- `main.get_run_artifact` (and its twin `get_frd_run_artifact`): call
`get_artifact`; a `None` result would raise HTTP 404 "Artifact not found"
(`notFoundPlain`); a result carrying both the "error" and "available" keys
raises 404 with the descriptor as detail; otherwise the result is returned.
An exception out of `get_artifact` propagates uncaught. -/
def get_run_artifact
    (parse : String → Except Unit JVal)
    (download : Int → Except PyExc (List ZipEntry))
    (artifacts : List ArtifactInfo)
    (artifact_name : String) : ArtifactEndpointResult :=
  match GitHubClient.get_artifact parse download artifacts artifact_name with
  | .error e => .raised e
  | .ok none => .notFoundPlain
  | .ok (some r) =>
    if r.hasKey "error" && r.hasKey "available" then .notFoundDetail r
    else .ok r

/-- Session metadata as `copilot_fetcher` reads it: the "sessionId" and
"startTime" fields (absent when the dict lacks them) and the remaining
metadata fields. -/
structure Session : Type where
  sessionId : Option String
  startTime : Option String
  fields : List (String × JVal)

/-- Python truthiness of an optional string: `None` and the empty string
are falsy (`if not sid: continue`). -/
def pyTruthyStr : Option String → Bool
  | some s => s != ""
  | none => false

/-- Python `xs[:c]` for an integer bound, including the negative-bound
case (`xs[:c]` with `c < 0` keeps the first `len(xs) + c` elements). -/
def pySliceTo {α : Type} (xs : List α) (c : Int) : List α :=
  if 0 ≤ c then xs.take c.toNat
  else xs.take (xs.length - (-c).toNat)

/-- The sort key of `_fetch_sessions`: `s.get("startTime", "")`. -/
def sessionSortKey (s : Session) : String := s.startTime.getD ""

/-- Lexicographic comparison of character lists by code point: Python's
string comparison. -/
def charListLe : List Char → List Char → Bool
  | [], _ => true
  | _ :: _, [] => false
  | a :: as, b :: bs =>
    if a.toNat < b.toNat then true
    else if b.toNat < a.toNat then false
    else charListLe as bs

/-- Python string `a <= b` (lexicographic by code point). -/
def strLe (a b : String) : Bool := charListLe a.data b.data

/-- Stable descending insertion: place `s` before the first element whose
key is at most `s`'s key, so earlier-listed sessions stay before
equal-keyed later ones. -/
def insertSessionDesc (s : Session) : List Session → List Session
  | [] => [s]
  | t :: ts =>
    if strLe (sessionSortKey t) (sessionSortKey s) then s :: t :: ts
    else t :: insertSessionDesc s ts

/-- `sessions.sort(key=lambda s: s.get("startTime", ""), reverse=True)`:
list.sort is stable, and a stable sort under a fixed key is unique, so the
stable insertion sort below is extensionally the same ordering. -/
def sortSessionsDesc (sessions : List Session) : List Session :=
  sessions.foldr insertSessionDesc []

/-- `copilot_fetcher._fetch_session_events`: inside a try/except, resume the
session and request `session.getMessages`, returning
`result.get("events", [])`; any raised exception degrades to `[]`.  `rpc`
models the whole try-block body as one fallible call. -/
def _fetch_session_events (rpc : String → Except Unit (List JVal))
    (session_id : String) : List JVal :=
  match rpc session_id with
  | .ok events => events
  | .error _ => []

/-- A stored session record: the metadata dict merged with the added
"events" key (`{**s, "events": events}`). -/
structure SessionRecord : Type where
  meta : Session
  events : List JVal

/-- The per-session loop of `fetch_copilot_sessions`, with the accumulated
`session_data` dict made explicit: for each selected session read
`s.get("sessionId")` and skip the session when it is falsy (`continue`),
else fetch its events and assign `session_data[sid]`. -/
def buildSessionDataAux (rpc : String → Except Unit (List JVal)) :
    List (String × SessionRecord) → List Session → List (String × SessionRecord)
  | acc, [] => acc
  | acc, s :: rest =>
    match s.sessionId with
    | some sid =>
      if sid != "" then
        buildSessionDataAux rpc
          (setKey acc sid ⟨s, _fetch_session_events rpc sid⟩) rest
      else buildSessionDataAux rpc acc rest
    | none => buildSessionDataAux rpc acc rest

/-- The `session_data` dict of `fetch_copilot_sessions`, built from the
empty dict over the selected sessions in order. -/
def buildSessionData (rpc : String → Except Unit (List JVal))
    (selected : List Session) : List (String × SessionRecord) :=
  buildSessionDataAux rpc [] selected

/-- `copilot_fetcher.fetch_copilot_sessions`, between client start and stop:
list and sort the sessions (`_fetch_sessions`, via `listed` as the raw RPC
listing), truncate with `cap = None if fetch_all else limit` followed by
`sessions[:cap] if cap else sessions` (both `None` and `0` are falsy, so a
zero cap does not truncate), then build the session-data map over the
selected sessions; return both. -/
def fetch_copilot_sessions (rpc : String → Except Unit (List JVal))
    (listed : List Session) (limit : Int) (fetch_all : Bool) :
    List Session × List (String × SessionRecord) :=
  let sessions := sortSessionsDesc listed
  let cap : Option Int := if fetch_all then none else some limit
  let sessions :=
    match cap with
    | some c => if c ≠ 0 then pySliceTo sessions c else sessions
    | none => sessions
  (sessions, buildSessionData rpc sessions)

/-- The process-wide session store of `main.py`, with its two fields. -/
structure SessionStore : Type where
  sessions : List Session
  session_data : List (String × SessionRecord)

/-- The response of the session-fetch endpoint: the success payload, or a
raised `HTTPException`. -/
inductive FetchResponse : Type where
  | ok (count : Nat) (message : String)
  | httpError (status : Nat) (detail : String)

/-- `main.fetch_sessions_endpoint`: await `fetch_copilot_sessions` inside a
try/except; a raised exception has the token scrubbed from its message and
becomes HTTP 500, with the store left untouched; on success the two store
fields are assigned in turn and the count message is returned.  The fetch
outcome arrives as an `Except` value. -/
def fetch_sessions_endpoint (token : String)
    (fetched : Except String (List Session × List (String × SessionRecord)))
    (store : SessionStore) : SessionStore × FetchResponse :=
  match fetched with
  | .error msg =>
    (store, .httpError 500 ("Fetch failed: " ++ msg.replace token "***"))
  | .ok (sessions, session_data) =>
    let store := { store with sessions := sessions }
    let store := { store with session_data := session_data }
    (store,
      .ok sessions.length
        ("Fetched " ++ toString sessions.length ++ " session(s) successfully"))

/-- An upstream run entry whose status ignores the requested
completed-status filter, for concrete checks. -/
def inProgressRun : UpstreamRun :=
  { id := 1, status := "in_progress", conclusion := none, created_at := "c",
    updated_at := "u", html_url := "h", head_sha := "abcdef0123",
    display_title := "t", run_number := 4, actor_login := none,
    actor_avatar := none }

/-- A completed upstream run entry, for concrete checks. -/
def completedRun : UpstreamRun :=
  { id := 9, status := "completed", conclusion := some "success",
    created_at := "c", updated_at := "u", html_url := "h",
    head_sha := "0123abcd", display_title := "t", run_number := 1,
    actor_login := some "octo", actor_avatar := some "a" }

/-- A session whose metadata lacks the "sessionId" field. -/
def idlessSession : Session := ⟨none, some "t", []⟩

/-- A session listing mixing an id-less session with an identified one. -/
def mixedSessions : List Session := [idlessSession, ⟨some "s2", some "u", []⟩]

/-- An event RPC that always succeeds with no events. -/
def emptyRpc : String → Except Unit (List JVal) := fun _ => .ok []

/-- Two identified sessions, for the failure-isolation checks. -/
def sessionOne : Session := ⟨some "s1", some "t", []⟩

/-- The later-started second session. -/
def sessionTwo : Session := ⟨some "s2", some "u", []⟩

/-- The listing holding the two identified sessions. -/
def twoSessions : List Session := [sessionOne, sessionTwo]

/-- An event RPC that raises for session "s1" and succeeds elsewhere. -/
def failingRpc : String → Except Unit (List JVal) :=
  fun sid => if sid = "s1" then .error () else .ok [.str "e"]

/-- The same RPC with the "s1" fetch succeeding instead. -/
def recoveredRpc : String → Except Unit (List JVal) :=
  fun sid => if sid = "s1" then .ok [.str "late"] else .ok [.str "e"]

/-- The record the failing fetch stores for session "s1". -/
def sessionOneRecord : SessionRecord := ⟨sessionOne, []⟩

/-- On a complete miss, the artifact-listing loop returns no id and the full
name list in listing order. -/
theorem findArtifact_miss (artifact_name : String)
    (artifacts : List ArtifactInfo)
    (h : ∀ a ∈ artifacts, a.name ≠ artifact_name) :
    findArtifact artifact_name artifacts
      = (none, artifacts.map ArtifactInfo.name) := by
  induction artifacts with
  | nil => rfl
  | cons a rest ih =>
    have ha : a.name ≠ artifact_name := h a (List.mem_cons_self a rest)
    have hr := ih (fun b hb => h b (List.mem_cons_of_mem a hb))
    simp [findArtifact, ha, hr]

/-- C2: when the run's artifact listing contains no artifact with the
requested name, get_artifact returns (not raises) the error descriptor
whose available-name list is the full list of artifact names of the
listing, in listing order. -/
theorem get_artifact_miss_returns_available
    (parse : String → Except Unit JVal)
    (download : Int → Except PyExc (List ZipEntry))
    (artifacts : List ArtifactInfo) (artifact_name : String)
    (hmiss : ∀ a ∈ artifacts, a.name ≠ artifact_name) :
    GitHubClient.get_artifact parse download artifacts artifact_name
      = .ok (some (.obj
          [("error", .str (artifactNotFoundMsg artifact_name)),
           ("available",
             .arr ((artifacts.map ArtifactInfo.name).map JVal.str))])) := by
  unfold GitHubClient.get_artifact
  rw [findArtifact_miss artifact_name artifacts hmiss]

/-- C2 witness: a two-artifact listing without the requested name yields
the error descriptor listing both names. -/
theorem get_artifact_miss_returns_available_witness :
    GitHubClient.get_artifact (fun _ => .ok .null) (fun _ => .ok [])
      [⟨"artifact-a", 1⟩, ⟨"artifact-b", 2⟩] "gatekeeper-final-analysis"
      = .ok (some (.obj
          [("error", .str (artifactNotFoundMsg "gatekeeper-final-analysis")),
           ("available", .arr [.str "artifact-a", .str "artifact-b"])])) :=
  get_artifact_miss_returns_available _ _ _ _ (by decide)

/-- C1: when the downloaded archive has an entry whose name ends with
"gatekeeper-consolidated.json", get_artifact extracts exactly the first
such entry — regardless of archive listing order relative to any
"council-results.json" entries, because the candidate names are tried in
priority order — and returns its parsed JSON (passed through the
cast-impact merge, which is the identity when no cast-impact entry
exists). -/
theorem get_artifact_prefers_consolidated
    (parse : String → Except Unit JVal)
    (download : Int → Except PyExc (List ZipEntry))
    (artifacts : List ArtifactInfo) (artifact_name : String)
    (aid : Int) (entries : List ZipEntry) (e : ZipEntry) (raw : String)
    (v : JVal)
    (hfind : (findArtifact artifact_name artifacts).1 = some aid)
    (hdl : download aid = .ok entries)
    (hentry : entries.find?
        (fun e => strEndsWith e.name "gatekeeper-consolidated.json")
      = some e)
    (hread : e.read = .ok raw)
    (hparse : parse raw = .ok v) :
    GitHubClient.get_artifact parse download artifacts artifact_name
      = .ok (some (GitHubClient._merge_cast_impact entries v))
    ∧ (entries.find?
          (fun e => strStartsWith (basename e.name) "cast-impact-analysis")
            = none →
        GitHubClient.get_artifact parse download artifacts artifact_name
          = .ok (some v)) := by
  have hch : chosenJsonEntry entries = some e := by
    simp [chosenJsonEntry, findCandidateEntry, json_candidates, hentry]
  have hmain : GitHubClient.get_artifact parse download artifacts artifact_name
      = .ok (some (GitHubClient._merge_cast_impact entries v)) := by
    unfold GitHubClient.get_artifact
    rcases hfa : findArtifact artifact_name artifacts with ⟨oid, avail⟩
    rw [hfa] at hfind
    simp only at hfind
    subst hfind
    simp [hdl, hch, hread, hparse]
  refine ⟨hmain, fun hnone => ?_⟩
  rw [hmain]
  unfold GitHubClient._merge_cast_impact
  rw [hnone]

/-- C1 witness: a bundle listing a council-results entry first and a nested
gatekeeper-consolidated entry second still returns the consolidated
entry's parsed content. -/
theorem get_artifact_prefers_consolidated_witness :
    GitHubClient.get_artifact
      (fun s => if s = "g" then .ok (.obj [("verdict", .str "pass")])
                else .error ())
      (fun _ => .ok [⟨"council-results.json", .ok "c"⟩,
                     ⟨"reports/gatekeeper-consolidated.json", .ok "g"⟩])
      [⟨"gatekeeper-final-analysis", 7⟩] "gatekeeper-final-analysis"
      = .ok (some (.obj [("verdict", .str "pass")])) :=
  (get_artifact_prefers_consolidated
    (fun s => if s = "g" then .ok (.obj [("verdict", .str "pass")])
              else .error ())
    (fun _ => .ok [⟨"council-results.json", .ok "c"⟩,
                   ⟨"reports/gatekeeper-consolidated.json", .ok "g"⟩])
    [⟨"gatekeeper-final-analysis", 7⟩] "gatekeeper-final-analysis" 7
    [⟨"council-results.json", .ok "c"⟩,
     ⟨"reports/gatekeeper-consolidated.json", .ok "g"⟩]
    ⟨"reports/gatekeeper-consolidated.json", .ok "g"⟩ "g"
    (.obj [("verdict", .str "pass")])
    (by rfl) (by rfl) (by rfl) (by rfl) (by rfl)).2 (by rfl)

/-- C3: when the extracted JSON payload parses to a dict and some archive
entry's base filename starts with "cast-impact-analysis", the result
carries that (first such) entry's decoded text under the added key
"cast_impact_analysis" alongside the parsed JSON fields; and when reading
that entry raises, the failure is swallowed and the parsed JSON is
returned without the added key. -/
theorem get_artifact_merges_cast_impact
    (parse : String → Except Unit JVal)
    (download : Int → Except PyExc (List ZipEntry))
    (artifacts : List ArtifactInfo) (artifact_name : String)
    (aid : Int) (entries : List ZipEntry) (j : ZipEntry) (raw : String)
    (fields : List (String × JVal)) (m : ZipEntry)
    (hfind : (findArtifact artifact_name artifacts).1 = some aid)
    (hdl : download aid = .ok entries)
    (hjson : chosenJsonEntry entries = some j)
    (hread : j.read = .ok raw)
    (hparse : parse raw = .ok (.obj fields))
    (hcast : entries.find?
        (fun e => strStartsWith (basename e.name) "cast-impact-analysis")
      = some m) :
    (∀ t, m.read = .ok t →
      GitHubClient.get_artifact parse download artifacts artifact_name
        = .ok (some (.obj (setKey fields "cast_impact_analysis" (.str t)))))
    ∧ (∀ u, m.read = .error u →
      GitHubClient.get_artifact parse download artifacts artifact_name
        = .ok (some (.obj fields))) := by
  have hmain : GitHubClient.get_artifact parse download artifacts artifact_name
      = .ok (some (GitHubClient._merge_cast_impact entries (.obj fields))) := by
    unfold GitHubClient.get_artifact
    rcases hfa : findArtifact artifact_name artifacts with ⟨oid, avail⟩
    rw [hfa] at hfind
    simp only at hfind
    subst hfind
    simp [hdl, hjson, hread, hparse]
  constructor
  · intro t ht
    rw [hmain]
    simp [GitHubClient._merge_cast_impact, hcast, ht]
  · intro u hu
    rw [hmain]
    simp [GitHubClient._merge_cast_impact, hcast, hu]

/-- C3 witness: a bundle holding a consolidated JSON and a
cast-impact-analysis markdown returns both the JSON fields and the
markdown text under the added key. -/
theorem get_artifact_merges_cast_impact_witness :
    GitHubClient.get_artifact
      (fun s => if s = "g" then .ok (.obj [("verdict", .str "pass")])
                else .error ())
      (fun _ => .ok [⟨"reports/gatekeeper-consolidated.json", .ok "g"⟩,
                     ⟨"cast-impact-analysis-v2.md", .ok "# impact"⟩])
      [⟨"gatekeeper-final-analysis", 7⟩] "gatekeeper-final-analysis"
      = .ok (some (.obj [("verdict", .str "pass"),
                         ("cast_impact_analysis", .str "# impact")])) :=
  (get_artifact_merges_cast_impact
    (fun s => if s = "g" then .ok (.obj [("verdict", .str "pass")])
              else .error ())
    (fun _ => .ok [⟨"reports/gatekeeper-consolidated.json", .ok "g"⟩,
                   ⟨"cast-impact-analysis-v2.md", .ok "# impact"⟩])
    [⟨"gatekeeper-final-analysis", 7⟩] "gatekeeper-final-analysis" 7
    [⟨"reports/gatekeeper-consolidated.json", .ok "g"⟩,
     ⟨"cast-impact-analysis-v2.md", .ok "# impact"⟩]
    ⟨"reports/gatekeeper-consolidated.json", .ok "g"⟩ "g"
    [("verdict", .str "pass")]
    ⟨"cast-impact-analysis-v2.md", .ok "# impact"⟩
    (by rfl) (by rfl) (by rfl) (by rfl) (by rfl) (by rfl)).1 "# impact" (by rfl)

/-- Every control path of get_artifact either raises or returns a dict:
the error descriptor on a name miss, the no-JSON error descriptor, or the
(possibly merged) parsed payload — never the absent value. -/
theorem get_artifact_shape
    (parse : String → Except Unit JVal)
    (download : Int → Except PyExc (List ZipEntry))
    (artifacts : List ArtifactInfo) (artifact_name : String) :
    (∃ e, GitHubClient.get_artifact parse download artifacts artifact_name
        = .error e)
    ∨ (∃ v, GitHubClient.get_artifact parse download artifacts artifact_name
        = .ok (some v)) := by
  unfold GitHubClient.get_artifact
  split
  · right; exact ⟨_, rfl⟩
  · split
    · left; exact ⟨_, rfl⟩
    · split
      · right; exact ⟨_, rfl⟩
      · split
        · left; exact ⟨_, rfl⟩
        · split
          · left; exact ⟨_, rfl⟩
          · right; exact ⟨_, rfl⟩

/-- C10: get_artifact never returns the absent value None — on a name miss
it returns the availability error descriptor, with no JSON entry it
returns the no-JSON error descriptor, otherwise a parsed payload (or an
exception propagates) — so the artifact endpoint's branch that tests the
result for None and raises 404 "Artifact not found" is unreachable. -/
theorem get_artifact_never_none
    (parse : String → Except Unit JVal)
    (download : Int → Except PyExc (List ZipEntry))
    (artifacts : List ArtifactInfo) (artifact_name : String) :
    GitHubClient.get_artifact parse download artifacts artifact_name
      ≠ .ok none
    ∧ get_run_artifact parse download artifacts artifact_name
      ≠ .notFoundPlain := by
  obtain ⟨e, he⟩ | ⟨v, hv⟩ :=
    get_artifact_shape parse download artifacts artifact_name
  · refine ⟨by rw [he]; exact fun h => Except.noConfusion h, ?_⟩
    have hep : get_run_artifact parse download artifacts artifact_name
        = .raised e := by
      unfold get_run_artifact; rw [he]
    rw [hep]
    exact fun h => ArtifactEndpointResult.noConfusion h
  · refine ⟨by rw [hv]; intro h; injection h with h'; exact Option.noConfusion h',
      ?_⟩
    have hep : get_run_artifact parse download artifacts artifact_name
        = if (v.hasKey "error" && v.hasKey "available") = true
          then .notFoundDetail v else .ok v := by
      unfold get_run_artifact; rw [hv]
    rw [hep]
    by_cases hk : (v.hasKey "error" && v.hasKey "available") = true
    · rw [if_pos hk]
      exact fun h => ArtifactEndpointResult.noConfusion h
    · rw [if_neg hk]
      exact fun h => ArtifactEndpointResult.noConfusion h

/-- C4 counterexample: an upstream 401 raises the same exception class
(PermissionError) as a 403 does, and the connect endpoint maps it to HTTP
403, not 401; an unclassified error (here an upstream 500 surfaced by
raise_for_status) is mapped to 401, not 500. -/
theorem connect_status_mapping_counterexample :
    GitHubClient._get_json 401 .null
      = .error (.permissionError invalidTokenMsg)
    ∧ GitHubClient._get_json 403 .null
      = .error (.permissionError accessDeniedMsg)
    ∧ connect_validate_status (GitHubClient._get_json 401 .null) = some 403
    ∧ connect_validate_status (GitHubClient._get_json 401 .null) ≠ some 401
    ∧ connect_validate_status (.error (.httpStatusError 500)) = some 401
    ∧ connect_validate_status (.error (.httpStatusError 500)) ≠ some 500 :=
  ⟨rfl, rfl, rfl, by decide, rfl, by decide⟩

/-- C4 amended: upstream 401 and 403 responses both raise PermissionError —
401 with the invalid-token message, 403 with the access-denied message
naming the required scopes — and 404 raises LookupError; the connect
endpoint maps any PermissionError to HTTP 403, any LookupError to 404, and
every other exception to 401 (there is no 500 mapping in connect). -/
theorem connect_error_mapping (body : JVal) (msg : String) (status : Nat) :
    GitHubClient._get_json 401 body
      = .error (.permissionError invalidTokenMsg)
    ∧ GitHubClient._get_json 403 body
      = .error (.permissionError accessDeniedMsg)
    ∧ GitHubClient._get_json 404 body
      = .error (.lookupError repoNotFoundMsg)
    ∧ connect_exc_status (.permissionError msg) = 403
    ∧ connect_exc_status (.lookupError msg) = 404
    ∧ connect_exc_status (.httpStatusError status) = 401
    ∧ connect_exc_status (.otherError msg) = 401
    ∧ connect_exc_status .jsonDecodeError = 401
    ∧ connect_exc_status .badZipError = 401 :=
  ⟨rfl, rfl, rfl, rfl, rfl, rfl, rfl, rfl, rfl⟩

/-- C5 counterexample: get_runs trusts the upstream response — an upstream
page ignoring the requested per_page=1 and completed filter yields two
returned entries, both reporting status "in_progress". -/
theorem get_runs_trusts_upstream_counterexample :
    (GitHubClient.get_runs (fun _ _ => [inProgressRun, inProgressRun]) 3 1).length
      = 2
    ∧ ¬((GitHubClient.get_runs (fun _ _ => [inProgressRun, inProgressRun]) 3 1).length
        ≤ 1)
    ∧ (GitHubClient.get_runs (fun _ _ => [inProgressRun, inProgressRun]) 3 1).map
        RunSummary.status
      = ["in_progress", "in_progress"]
    ∧ ("in_progress" : String) ≠ "completed" :=
  ⟨rfl, by decide, rfl, by decide⟩

/-- C5 amended: get_runs asks upstream for one page with params per_page
and status=completed and returns one summary per run of the response,
preserving each run's reported status; hence whenever the upstream page
honours the parameters — at most per_page entries, all completed — the
returned listing has at most per_page entries, all reporting
"completed". -/
theorem get_runs_page_completed
    (fetchPage : Int → RunsQuery → List UpstreamRun)
    (workflow_id per_page : Int)
    (hlen : (fetchPage workflow_id
        { per_page := per_page, status := "completed" }).length
      ≤ per_page.toNat)
    (hstatus : ∀ r ∈ fetchPage workflow_id
        { per_page := per_page, status := "completed" },
      r.status = "completed") :
    (GitHubClient.get_runs fetchPage workflow_id per_page).length
      ≤ per_page.toNat
    ∧ ∀ s ∈ GitHubClient.get_runs fetchPage workflow_id per_page,
        s.status = "completed" := by
  constructor
  · simpa [GitHubClient.get_runs] using hlen
  · intro s hs
    simp only [GitHubClient.get_runs, List.mem_map] at hs
    obtain ⟨r, hr, rfl⟩ := hs
    simpa [summarizeRun] using hstatus r hr

/-- C5 amended witness: an upstream page honouring the parameters gives a
one-entry completed listing within the page size. -/
theorem get_runs_page_completed_witness :
    (GitHubClient.get_runs
        (fun _ q => if q.status = "completed" then [completedRun] else [])
        3 2).length
      ≤ (2 : Int).toNat
    ∧ ∀ s ∈ GitHubClient.get_runs
        (fun _ q => if q.status = "completed" then [completedRun] else [])
        3 2,
        s.status = "completed" :=
  get_runs_page_completed
    (fun _ q => if q.status = "completed" then [completedRun] else [])
    3 2 (by decide) (by decide)

/-- Lookup after a dict assignment: the assigned key reads the new value,
every other key is unchanged. -/
theorem getKey_setKey {α : Type} (acc : List (String × α)) (k k' : String)
    (v : α) :
    getKey (setKey acc k v) k' = if k = k' then some v else getKey acc k' := by
  induction acc with
  | nil => simp [setKey, getKey]
  | cons p rest ih =>
    obtain ⟨k0, v0⟩ := p
    by_cases h0 : k0 = k
    · subst h0
      by_cases h1 : k0 = k'
      · subst h1; simp [setKey, getKey]
      · simp [setKey, getKey, h1]
    · by_cases h1 : k0 = k'
      · subst h1
        simp [setKey, getKey, h0, Ne.symm h0]
      · simp [setKey, getKey, h0, h1, ih]

/-- A non-negative Python slice bound caps the length. -/
theorem pySliceTo_length_le {α : Type} (xs : List α) (c : Int) (hc : 0 ≤ c) :
    (pySliceTo xs c).length ≤ c.toNat := by
  simp only [pySliceTo, if_pos hc, List.length_take]
  omega

/-- Every record the session-data loop stores comes from a session of the
selected list (or was already in the accumulator). -/
theorem buildSessionDataAux_mem (rpc : String → Except Unit (List JVal))
    (sel : List Session) :
    ∀ (acc : List (String × SessionRecord)) (k : String) (r : SessionRecord),
      getKey (buildSessionDataAux rpc acc sel) k = some r →
      getKey acc k = some r ∨ r.meta ∈ sel := by
  induction sel with
  | nil => intro acc k r h; exact .inl h
  | cons s rest ih =>
    intro acc k r h
    cases hsid : s.sessionId with
    | none =>
      simp only [buildSessionDataAux, hsid] at h
      rcases ih _ _ _ h with h' | h'
      · exact .inl h'
      · exact .inr (List.mem_cons_of_mem s h')
    | some sid =>
      simp only [buildSessionDataAux, hsid] at h
      by_cases hne : (sid != "") = true
      · rw [if_pos hne] at h
        rcases ih _ _ _ h with h' | h'
        · rw [getKey_setKey] at h'
          by_cases hk : sid = k
          · rw [if_pos hk] at h'
            injection h' with h''
            subst h''
            exact .inr (List.mem_cons_self s rest)
          · rw [if_neg hk] at h'
            exact .inl h'
        · exact .inr (List.mem_cons_of_mem s h')
      · rw [if_neg hne] at h
        rcases ih _ _ _ h with h' | h'
        · exact .inl h'
        · exact .inr (List.mem_cons_of_mem s h')

/-- Every record the session-data loop stores sits under its own session's
(truthy) identifier. -/
theorem buildSessionDataAux_key (rpc : String → Except Unit (List JVal))
    (sel : List Session) :
    ∀ (acc : List (String × SessionRecord)) (k : String) (r : SessionRecord),
      getKey (buildSessionDataAux rpc acc sel) k = some r →
      getKey acc k = some r ∨ r.meta.sessionId = some k := by
  induction sel with
  | nil => intro acc k r h; exact .inl h
  | cons s rest ih =>
    intro acc k r h
    cases hsid : s.sessionId with
    | none =>
      simp only [buildSessionDataAux, hsid] at h
      exact ih _ _ _ h
    | some sid =>
      simp only [buildSessionDataAux, hsid] at h
      by_cases hne : (sid != "") = true
      · rw [if_pos hne] at h
        rcases ih _ _ _ h with h' | h'
        · rw [getKey_setKey] at h'
          by_cases hk : sid = k
          · rw [if_pos hk] at h'
            injection h' with h''
            subst h''
            right
            rw [hsid, hk]
          · rw [if_neg hk] at h'
            exact .inl h'
        · exact .inr h'
      · rw [if_neg hne] at h
        exact ih _ _ _ h

/-- Dropping the sessions with a falsy identifier before the session-data
loop changes nothing: the loop skips them itself. -/
theorem buildSessionDataAux_filter (rpc : String → Except Unit (List JVal))
    (sel : List Session) :
    ∀ acc, buildSessionDataAux rpc acc sel
      = buildSessionDataAux rpc acc
          (sel.filter (fun t => pyTruthyStr t.sessionId)) := by
  induction sel with
  | nil => intro acc; rfl
  | cons s rest ih =>
    intro acc
    cases hsid : s.sessionId with
    | none =>
      simp only [buildSessionDataAux, hsid, List.filter_cons, pyTruthyStr,
        Bool.false_eq_true, if_false]
      exact ih acc
    | some sid =>
      by_cases hne : (sid != "") = true
      · have hp : pyTruthyStr (some sid) = true := by
          simpa [pyTruthyStr] using hne
        simp only [buildSessionDataAux, hsid, List.filter_cons, hp, if_pos hne,
          eq_self_iff_true, if_true]
        exact ih _
      · have hp : pyTruthyStr (some sid) = false := by
          simpa [pyTruthyStr] using hne
        simp only [buildSessionDataAux, hsid, List.filter_cons, hp,
          Bool.false_eq_true, if_false, if_neg hne]
        exact ih acc

/-- The session-data loop under two event RPCs that agree away from one
identifier produces maps that agree away from that identifier. -/
theorem buildSessionDataAux_agree (rpc rpc2 : String → Except Unit (List JVal))
    (sid0 : String) (hagree : ∀ sid, sid ≠ sid0 → rpc2 sid = rpc sid)
    (sel : List Session) :
    ∀ acc acc2, (∀ k, k ≠ sid0 → getKey acc k = getKey acc2 k) →
      ∀ k, k ≠ sid0 →
        getKey (buildSessionDataAux rpc acc sel) k
          = getKey (buildSessionDataAux rpc2 acc2 sel) k := by
  induction sel with
  | nil => intro acc acc2 hinv k hk; exact hinv k hk
  | cons s rest ih =>
    intro acc acc2 hinv k hk
    cases hsid : s.sessionId with
    | none =>
      simp only [buildSessionDataAux, hsid]
      exact ih _ _ hinv k hk
    | some sid =>
      simp only [buildSessionDataAux, hsid]
      by_cases hne : (sid != "") = true
      · rw [if_pos hne, if_pos hne]
        refine ih _ _ ?_ k hk
        intro k' hk'
        rw [getKey_setKey, getKey_setKey]
        by_cases hks : sid = k'
        · rw [if_pos hks, if_pos hks]
          have hrpc : rpc2 sid = rpc sid := hagree sid (by rw [hks]; exact hk')
          simp [_fetch_session_events, hrpc]
        · rw [if_neg hks, if_neg hks]
          exact hinv k' hk'
      · rw [if_neg hne, if_neg hne]
        exact ih _ _ hinv k hk

/-- When the event RPC raises for one identifier, any record the loop
stores under that identifier carries an empty event list. -/
theorem buildSessionDataAux_fail_empty (rpc : String → Except Unit (List JVal))
    (sid0 : String) (hfail : rpc sid0 = .error ()) (sel : List Session) :
    ∀ acc, (∀ r, getKey acc sid0 = some r → r.events = []) →
      ∀ r, getKey (buildSessionDataAux rpc acc sel) sid0 = some r →
        r.events = [] := by
  induction sel with
  | nil => intro acc hinv r h; exact hinv r h
  | cons s rest ih =>
    intro acc hinv r h
    cases hsid : s.sessionId with
    | none =>
      simp only [buildSessionDataAux, hsid] at h
      exact ih _ hinv r h
    | some sid =>
      simp only [buildSessionDataAux, hsid] at h
      by_cases hne : (sid != "") = true
      · rw [if_pos hne] at h
        refine ih _ ?_ r h
        intro r' h'
        rw [getKey_setKey] at h'
        by_cases hk : sid = sid0
        · rw [if_pos hk] at h'
          injection h' with h''
          subst h''
          show _fetch_session_events rpc sid = []
          rw [hk]
          simp [_fetch_session_events, hfail]
        · rw [if_neg hk] at h'
          exact hinv r' h'
      · rw [if_neg hne] at h
        exact ih _ hinv r h

/-- C6 counterexample: with the "all" flag false and the non-negative limit
0, a one-session listing is returned untruncated — `sessions[:cap] if cap
else sessions` treats the 0 cap as falsy — so the returned list exceeds
the limit. -/
theorem fetch_sessions_zero_limit_counterexample :
    (fetch_copilot_sessions emptyRpc [idlessSession] 0 false).1
      = [idlessSession]
    ∧ ¬((fetch_copilot_sessions emptyRpc [idlessSession] 0 false).1.length
        ≤ 0) :=
  ⟨rfl, by decide⟩

/-- C6 amended: with the "all" flag false and any positive limit, the
returned session list is truncated to at most the limit and every stored
record's metadata comes from that truncated list (so only selected
sessions have events fetched); with the flag true no truncation occurs.
(With limit 0 the falsy cap disables truncation, per the
counterexample.) -/
theorem fetch_sessions_limit_truncates
    (rpc : String → Except Unit (List JVal)) (listed : List Session)
    (limit : Int) :
    (0 < limit →
      ((fetch_copilot_sessions rpc listed limit false).1.length ≤ limit.toNat
       ∧ ∀ k r,
           getKey (fetch_copilot_sessions rpc listed limit false).2 k = some r →
           r.meta ∈ (fetch_copilot_sessions rpc listed limit false).1))
    ∧ (fetch_copilot_sessions rpc listed limit true).1 = sortSessionsDesc listed
    ∧ (fetch_copilot_sessions rpc listed limit true).2
      = buildSessionData rpc (sortSessionsDesc listed) := by
  refine ⟨?_, rfl, rfl⟩
  intro hpos
  have hne : limit ≠ 0 := by omega
  have h1 : (fetch_copilot_sessions rpc listed limit false).1
      = pySliceTo (sortSessionsDesc listed) limit := by
    simp [fetch_copilot_sessions, hne]
  have h2 : (fetch_copilot_sessions rpc listed limit false).2
      = buildSessionDataAux rpc [] (pySliceTo (sortSessionsDesc listed) limit) := by
    simp [fetch_copilot_sessions, buildSessionData, hne]
  constructor
  · rw [h1]
    exact pySliceTo_length_le _ _ (le_of_lt hpos)
  · intro k r h
    rw [h2] at h
    rw [h1]
    rcases buildSessionDataAux_mem rpc _ [] k r h with h' | h'
    · simp [getKey] at h'
    · exact h'

/-- C6 amended witness: limit 1 over a two-session listing returns at most
one session, and the flag-true fetch returns the full sorted listing. -/
theorem fetch_sessions_limit_truncates_witness :
    ((fetch_copilot_sessions emptyRpc mixedSessions 1 false).1.length
      ≤ (1 : Int).toNat)
    ∧ (fetch_copilot_sessions emptyRpc mixedSessions 1 true).1
      = sortSessionsDesc mixedSessions :=
  ⟨((fetch_sessions_limit_truncates emptyRpc mixedSessions 1).1 (by decide)).1,
   (fetch_sessions_limit_truncates emptyRpc mixedSessions 1).2.1⟩

/-- C7: when the event fetch raises for one session identifier, any record
stored under that identifier carries an empty event list, while the
returned session list and every other identifier's record are exactly what
they would be under an RPC whose fetch for that identifier succeeds (and
agrees elsewhere): one failing session never aborts or perturbs the
batch. -/
theorem fetch_sessions_event_failure_isolated
    (rpc rpc2 : String → Except Unit (List JVal)) (listed : List Session)
    (limit : Int) (fetch_all : Bool) (sid0 : String)
    (hfail : rpc sid0 = .error ())
    (hagree : ∀ sid, sid ≠ sid0 → rpc2 sid = rpc sid) :
    (fetch_copilot_sessions rpc listed limit fetch_all).1
      = (fetch_copilot_sessions rpc2 listed limit fetch_all).1
    ∧ (∀ r,
        getKey (fetch_copilot_sessions rpc listed limit fetch_all).2 sid0
          = some r →
        r.events = [])
    ∧ (∀ k, k ≠ sid0 →
        getKey (fetch_copilot_sessions rpc listed limit fetch_all).2 k
          = getKey (fetch_copilot_sessions rpc2 listed limit fetch_all).2 k) := by
  refine ⟨rfl, ?_, ?_⟩
  · intro r h
    exact buildSessionDataAux_fail_empty rpc sid0 hfail _ []
      (fun r' h' => by simp [getKey] at h') r h
  · intro k hk
    exact buildSessionDataAux_agree rpc rpc2 sid0 hagree _ [] []
      (fun _ _ => rfl) k hk

/-- C7 witness: with the RPC failing on "s1", the stored "s1" record has no
events, and the "s2" record equals the one produced when the "s1" fetch
succeeds instead. -/
theorem fetch_sessions_event_failure_isolated_witness :
    getKey (fetch_copilot_sessions failingRpc twoSessions 5 false).2 "s2"
      = getKey (fetch_copilot_sessions recoveredRpc twoSessions 5 false).2 "s2"
    ∧ getKey (fetch_copilot_sessions failingRpc twoSessions 5 false).2 "s1"
      = some sessionOneRecord
    ∧ sessionOneRecord.events = ([] : List JVal) :=
  ⟨(fetch_sessions_event_failure_isolated failingRpc recoveredRpc twoSessions
      5 false "s1" (by rfl)
      (fun sid hsid => by simp [failingRpc, recoveredRpc, hsid])).2.2
    "s2" (by decide),
   by rfl,
   (fetch_sessions_event_failure_isolated failingRpc recoveredRpc twoSessions
      5 false "s1" (by rfl)
      (fun sid hsid => by simp [failingRpc, recoveredRpc, hsid])).2.1
    sessionOneRecord (by rfl)⟩

/-- C8: a selected session whose metadata lacks the "sessionId" field still
appears in the returned metadata list, but no record of the returned
mapping carries its metadata, and the mapping is exactly the one built
from the id-filtered selection (so no events are fetched for id-less
sessions). -/
theorem fetch_sessions_missing_id_excluded
    (rpc : String → Except Unit (List JVal)) (listed : List Session)
    (limit : Int) (fetch_all : Bool) (s : Session)
    (hs : s ∈ (fetch_copilot_sessions rpc listed limit fetch_all).1)
    (hid : s.sessionId = none) :
    s ∈ (fetch_copilot_sessions rpc listed limit fetch_all).1
    ∧ (∀ k r,
        getKey (fetch_copilot_sessions rpc listed limit fetch_all).2 k
          = some r →
        r.meta ≠ s)
    ∧ (fetch_copilot_sessions rpc listed limit fetch_all).2
      = buildSessionData rpc
          (((fetch_copilot_sessions rpc listed limit fetch_all).1).filter
            (fun t => pyTruthyStr t.sessionId)) := by
  refine ⟨hs, ?_, ?_⟩
  · intro k r h heq
    rcases buildSessionDataAux_key rpc _ [] k r h with h' | h'
    · simp [getKey] at h'
    · rw [heq, hid] at h'
      exact Option.noConfusion h'
  · exact buildSessionDataAux_filter rpc _ []

/-- C8 witness: the id-less session of a mixed listing stays in the
returned list while the mapping equals the one built from the id-filtered
selection. -/
theorem fetch_sessions_missing_id_excluded_witness :
    idlessSession ∈ (fetch_copilot_sessions emptyRpc mixedSessions 10 false).1
    ∧ (fetch_copilot_sessions emptyRpc mixedSessions 10 false).2
      = buildSessionData emptyRpc
          (((fetch_copilot_sessions emptyRpc mixedSessions 10 false).1).filter
            (fun t => pyTruthyStr t.sessionId)) :=
  ⟨(fetch_sessions_missing_id_excluded emptyRpc mixedSessions 10 false
      idlessSession (List.Mem.tail _ (List.Mem.head _)) rfl).1,
   (fetch_sessions_missing_id_excluded emptyRpc mixedSessions 10 false
      idlessSession (List.Mem.tail _ (List.Mem.head _)) rfl).2.2⟩

/-- C9: the session-fetch endpoint replaces the store's two fields, as a
pair, exactly when the fetch succeeds; when the fetch raises, both fields
keep their prior values (the 500 error is raised before any
assignment). -/
theorem fetch_sessions_endpoint_atomic (token : String)
    (fetched : Except String (List Session × List (String × SessionRecord)))
    (store : SessionStore) :
    (∀ l m, fetched = .ok (l, m) →
      (fetch_sessions_endpoint token fetched store).1
        = { sessions := l, session_data := m })
    ∧ (∀ e, fetched = .error e →
      (fetch_sessions_endpoint token fetched store).1 = store) := by
  constructor
  · intro l m h
    subst h
    rfl
  · intro e h
    subst h
    rfl

/-- C9 witness: a successful empty fetch replaces both fields; a raised
fetch leaves the prior store untouched. -/
theorem fetch_sessions_endpoint_atomic_witness :
    (fetch_sessions_endpoint "tok" (.ok ([], []))
        { sessions := mixedSessions, session_data := [] }).1
      = { sessions := [], session_data := [] }
    ∧ (fetch_sessions_endpoint "tok" (.error "boom")
        { sessions := mixedSessions, session_data := [] }).1
      = { sessions := mixedSessions, session_data := [] } :=
  ⟨(fetch_sessions_endpoint_atomic "tok" (.ok ([], []))
      { sessions := mixedSessions, session_data := [] }).1 [] [] rfl,
   (fetch_sessions_endpoint_atomic "tok" (.error "boom")
      { sessions := mixedSessions, session_data := [] }).2 "boom" rfl⟩
